import Mathlib

/-!
Verification of the airscan-simple eSCL scan client (src/airscan-simple.py).

The Python program is shallowly embedded:

* `build_scansettings_xml` becomes a Lean `String` function built by the same
  concatenation as the source;
* the HTTP transport is abstracted as a function from the attempt index to a
  response (`urlopen` either returns a response with headers, 2xx after
  redirects, or raises `HTTPError code`);
* `sys.exit`, re-raised exceptions and normal returns become constructors of
  explicit outcome types;
* the busy-retry loop of `post_scanrequest` becomes a structurally recursive
  function on the remaining retry budget, and the page-fetch loop of
  `fetch_result` becomes a fuel-indexed recursion (`none` models a run that
  never terminates);
* `time.sleep(1)` calls are counted rather than performed, and `print`
  output relevant to the claims is collected in lists of strings.
-/

set_option maxRecDepth 8000

/-! ## Job descriptor builder (`build_scansettings_xml`, lines 23-44) -/

/-- Embedding of `build_scansettings_xml` (src/airscan-simple.py lines 23-44):
the scan-settings XML document, built by string concatenation exactly as in
the source.  `extformat` is the Python keyword argument (defaulted to `True`
at its only call site, inside `post_scanrequest`). -/
def build_scansettings_xml (source resolution docformat colormode : String)
    (extformat : Bool) : String :=
  "<?xml version=\"1.0\" encoding=\"UTF-8\"?>" ++
  "<scan:ScanSettings xmlns:pwg=\"http://www.pwg.org/schemas/2010/12/sm\" " ++
  "xmlns:scan=\"http://schemas.hp.com/imaging/escl/2011/05/03\">" ++
  "<pwg:Version>2.0</pwg:Version>" ++
  "<pwg:InputSource>" ++ source ++ "</pwg:InputSource>" ++
  "<pwg:ScanRegions>" ++
  "<pwg:ScanRegion>" ++
  "<pwg:ContentRegionUnits>escl:ThreeHundredthsOfInches</pwg:ContentRegionUnits>" ++
  "<pwg:Height>3507</pwg:Height>" ++
  "<pwg:Width>2550</pwg:Width>" ++
  "<pwg:XOffset>0</pwg:XOffset>" ++
  "<pwg:YOffset>0</pwg:YOffset>" ++
  "</pwg:ScanRegion>" ++
  "</pwg:ScanRegions>" ++
  "<pwg:DocumentFormat>" ++ docformat ++ "</pwg:DocumentFormat>" ++
  (if extformat then "<pwg:DocumentFormatExt>" ++ docformat ++ "</pwg:DocumentFormatExt>" else "") ++
  "<scan:ColorMode>" ++ colormode ++ "</scan:ColorMode>" ++
  "<scan:XResolution>" ++ resolution ++ "</scan:XResolution>" ++
  "<scan:YResolution>" ++ resolution ++ "</scan:YResolution>" ++
  "</scan:ScanSettings>"

/-- A scan-regions XML element holding exactly one scan region, with the fixed
height 3507, width 2550, zero X and Y offsets, and the given region-units
literal between the `ContentRegionUnits` tags. -/
def scanRegionsBlock (units : String) : String :=
  "<pwg:ScanRegions>" ++
  "<pwg:ScanRegion>" ++
  "<pwg:ContentRegionUnits>" ++ units ++ "</pwg:ContentRegionUnits>" ++
  "<pwg:Height>3507</pwg:Height>" ++
  "<pwg:Width>2550</pwg:Width>" ++
  "<pwg:XOffset>0</pwg:XOffset>" ++
  "<pwg:YOffset>0</pwg:YOffset>" ++
  "</pwg:ScanRegion>" ++
  "</pwg:ScanRegions>"

/-- Modelled from the spec: the spec asserts the region-units tag denotes
hundredths-of-inch units ("units = hundredths-of-inch"); the eSCL-style
literal naming that unit.  The source instead emits the literal
`escl:ThreeHundredthsOfInches`. -/
def hundredthsOfInchesUnits : String := "escl:HundredthsOfInches"

/-- The region-units literal the source actually emits, denoting
three-hundredths-of-inch (1/300 inch) units. -/
def threeHundredthsOfInchesUnits : String := "escl:ThreeHundredthsOfInches"

/-- `pat` occurs as a contiguous substring of `xml`. -/
def xmlContains (xml pat : String) : Prop := pat.data <:+: xml.data

/-- Bounded string matcher on character lists (structurally recursive, so the
kernel can evaluate it on the concrete documents). -/
def occursInChars (pat : List Char) : List Char → Bool
  | [] => pat.isEmpty
  | c :: cs => pat.isPrefixOf (c :: cs) || occursInChars pat cs

/-! ## Job submitter (`post_scanrequest`, lines 53-77) -/

/-- Outcome of one `urllib.request.urlopen` POST: a response (urllib returns
only on HTTP success, following redirects) carrying its headers, or a raised
`HTTPError` with a status code. -/
inductive HttpResp where
  | success (headers : List (String × String))
  | httpError (code : Nat)

/-- Embedding of Python `email.message.Message.__getitem__` as used by
`headers['location']` (line 77): case-insensitive lookup of the first
matching header, `none` (Python `None`) when the header is absent — absence
does not raise.  Lower-casing is done on the character list because
`String.toLower` does not reduce in the kernel. -/
def getHeader (headers : List (String × String)) (name : String) : Option String :=
  (headers.find? fun p => p.1.data.map Char.toLower == name.data.map Char.toLower).map
    Prod.snd

/-- How `post_scanrequest` can leave its loop: a normal `return`
(`headers['location']`, which is `none` when the header is missing), a
`sys.exit(status)`, or re-raising the `HTTPError` (`raise`, line 73). -/
inductive PostResult where
  | returned (location : Option String)
  | exited (status : Nat)
  | raised (code : Nat)

/-- Result of `post_scanrequest` together with the number of POST attempts
made and the number of `time.sleep(1)` calls performed. -/
structure PostOutcome where
  result : PostResult
  attempts : Nat
  sleeps : Nat

/-- Modelled from the spec: an abnormal termination of job submission — the
run exits or an exception propagates — as opposed to a normal return.  The
spec's `ProtocolError` for a missing `Location` header would be such an
abnormal termination. -/
def failsAbnormally (o : PostOutcome) : Prop :=
  o.result = PostResult.exited 1 ∨ ∃ c, o.result = PostResult.raised c

/-- Embedding of the `while True` retry loop of `post_scanrequest`
(lines 60-73).  `budget` is `100 - count` for the Python counter `count`
(so the loop starts at `budget = 100`); the transport `t` maps the attempt
index (equal to `count` at the time of the attempt) to the response.  Each
attempt POSTs once; on a 503 the counter is incremented and one sleep
happens, and the Python guard `count < 100` (continue) holds exactly when
`budget` has the shape `b + 2`, otherwise `sys.exit(1)` runs.  Any other
`HTTPError` is re-raised; on success the loop breaks and the `location`
header is returned (line 77).  The recursion is split on the shape of
`budget` so that it is structural; the two branches handle the 503 case
differently but are otherwise identical, as in the source. -/
def postLoop (t : Nat → HttpResp) : Nat → PostOutcome
  | b + 2 =>
    match t (100 - (b + 2)) with
    | .success hs => ⟨.returned (getHeader hs "location"), 1, 0⟩
    | .httpError c =>
      if c = 503 then
        let o := postLoop t (b + 1)
        ⟨o.result, o.attempts + 1, o.sleeps + 1⟩
      else ⟨.raised c, 1, 0⟩
  | budget =>
    match t (100 - budget) with
    | .success hs => ⟨.returned (getHeader hs "location"), 1, 0⟩
    | .httpError c =>
      if c = 503 then ⟨.exited 1, 1, 1⟩
      else ⟨.raised c, 1, 0⟩

/-- Embedding of `post_scanrequest` (lines 53-77): run the retry loop with
`count = 0`, i.e. a budget of 100. -/
def post_scanrequest (t : Nat → HttpResp) : PostOutcome := postLoop t 100

/-! ## Source resolution (`__main__`, lines 108-160) -/

/-- The capability facts the `__main__` code inspects in the parsed
capabilities document: presence of the `scan:Platen` / `scan:Adf` keys and of
their nested input-caps keys (lines 116-123). -/
structure ScanCaps where
  hasPlaten : Bool
  platenHasInputCaps : Bool
  hasAdf : Bool
  adfHasSimplexCaps : Bool
  adfHasDuplexCaps : Bool

/-- Python `have_flatbed` (lines 116-118): `scan:Platen` present and it has
`scan:PlatenInputCaps`. -/
def have_flatbed (caps : ScanCaps) : Bool := caps.hasPlaten && caps.platenHasInputCaps

/-- Python `have_adf` (lines 119-121): `scan:Adf` present and it has
`scan:AdfSimplexInputCaps`. -/
def have_adf (caps : ScanCaps) : Bool := caps.hasAdf && caps.adfHasSimplexCaps

/-- Python `have_duplex` (lines 119-123): `scan:Adf` present and it has
`scan:AdfDuplexInputCaps`. -/
def have_duplex (caps : ScanCaps) : Bool := caps.hasAdf && caps.adfHasDuplexCaps

/-- Which input-caps subtree of the capabilities document line 134, 141, 144
or 149 selects. -/
inductive InputCapsChoice where
  | adfDuplex
  | adfSimplex
  | platen

/-- Outcome of the source-resolution part of `__main__` (lines 124-152):
either `sys.exit(status)` with the printed lines, or fall through with the
Python flags `adf` and `duplex`, the selected input caps, and any printed
warning lines. -/
inductive ResolveResult where
  | exited (status : Nat) (prints : List String)
  | proceed (adf duplex : Bool) (inputCaps : InputCapsChoice) (prints : List String)

/-- Embedding of the source-resolution logic of `__main__` (lines 124-152),
branch for branch.  In the `DuplexADF`-unavailable branch the second printed
line is `'  ' + '' + ' ' + ''` because the Python flags `adf` and `flatbed`
are still `False` there. -/
def resolve_source (requested : String) (caps : ScanCaps) : ResolveResult :=
  if !have_flatbed caps && !have_adf caps && !have_duplex caps then
    .exited 1 ["no scan source (Flatbed, ADF) found, bailing out"]
  else if requested = "DuplexADF" then
    if !have_duplex caps then
      .exited 1 ["source DuplexADF not available, only have:", "   "]
    else
      .proceed true true .adfDuplex []
  else if requested = "ADF" then
    if !have_adf caps then
      if !have_flatbed caps then
        .exited 1 ["source ADF is not available"]
      else
        .proceed false false .platen ["source ADF not available, falling back to Flatbed"]
    else
      .proceed true false .adfSimplex []
  else if requested = "Flatbed" then
    if !have_flatbed caps then
      .exited 1 ["source Flatbed is not available"]
    else
      .proceed false false .platen []
  else
    .exited 1 ["invalid source argument: " ++ requested]

/-- Embedding of lines 155-160 of `__main__`: from the resolved `adf` flag
and the requested output format, the `source` string sent to the scanner and
the `multifile` flag handed to `fetch_result` (`multifile` was initialised to
`False` on line 115 and is set only in the feeder branch for non-pdf
formats). -/
def select_source_and_multifile (adf : Bool) (format : String) : String × Bool :=
  if adf then ("Feeder", format != "pdf") else ("Platen", false)

/-! ## Result fetcher (`fetch_result`, lines 79-99) -/

/-- Embedding of the Python multi-page filename derivation (lines 84-86):
`outfile.split('.')`, `pop()` the last segment, re-`join` the rest and insert
`-<count>` before the final extension.  `String.splitOn` is defined by
well-founded recursion and does not reduce in the kernel, so the split is
embedded as the structurally recursive `splitOnDot` on the character list;
it agrees with Python `str.split('.')`. -/
def splitOnDot : List Char → List (List Char)
  | [] => [[]]
  | c :: cs =>
    let r := splitOnDot cs
    if c = '.' then [] :: r
    else
      match r with
      | [] => [[c]]
      | h :: tl => (c :: h) :: tl

/-- The target filename used by `fetch_result` in multi-page mode
(lines 84-86): `'.'.join(name) + '-' + str(count) + '.' + ext` where
`ext = name.pop()`. -/
def multi_filename (outfile : String) (count : Nat) : String :=
  let parts := splitOnDot outfile.data
  String.mk (List.intercalate ['.'] parts.dropLast) ++ "-" ++ toString count ++ "." ++
    String.mk (parts.getLastD [])

/-- Outcome of one `urllib.request.urlretrieve` GET of
`<location>/NextDocument`: success (the file is written) or a raised
`HTTPError` with a status code. -/
inductive FetchResp where
  | ok
  | httpError (code : Nat)

/-- How `fetch_result` ends: a normal return (`break` on single-page success
or on a 404), or re-raising a non-404 `HTTPError`.  `files` lists the
filenames written, in order; `gets` counts the GET requests issued. -/
inductive FetchOutcome where
  | done (files : List String) (gets : Nat)
  | raised (code : Nat) (files : List String) (gets : Nat)

/-- Embedding of the `while True` loop of `fetch_result` (lines 81-99): the
transport `t` maps the index of the GET to its response, `count` is the
1-based Python page counter, and `fuel` bounds the number of iterations
(`none` models the loop not terminating within the fuel; in multi-page mode
the Python loop is unbounded).  Each iteration sleeps once, computes the
target filename, and issues one GET: on success the file is written and, in
non-multi mode, the loop breaks; on a 404 the loop breaks normally; any
other `HTTPError` is re-raised. -/
def fetchLoop (t : Nat → FetchResp) (multi : Bool) (outfile : String) :
    Nat → Nat → Nat → Option FetchOutcome
  | 0, _, _ => none
  | fuel + 1, count, i =>
    let filename := if multi then multi_filename outfile count else outfile
    match t i with
    | .ok =>
      if multi then
        match fetchLoop t multi outfile fuel (count + 1) (i + 1) with
        | none => none
        | some (.done fs g) => some (.done (filename :: fs) (g + 1))
        | some (.raised c fs g) => some (.raised c (filename :: fs) (g + 1))
      else some (.done [filename] 1)
    | .httpError c => if c = 404 then some (.done [] 1) else some (.raised c [] 1)

/-- Embedding of `fetch_result` (lines 79-99): start the loop with
`count = 1` at the first GET. -/
def fetch_result (t : Nat → FetchResp) (outfile : String) (multi : Bool)
    (fuel : Nat) : Option FetchOutcome :=
  fetchLoop t multi outfile fuel 1 0

/-! ## Concrete transports used by witnesses and counterexamples -/

/-- A transport whose (first) response is a 2xx with no headers at all. -/
def noLocationTransport : Nat → HttpResp := fun _ => .success []

/-- A transport whose first response is a 2xx carrying a `Location` header. -/
def locationTransport : Nat → HttpResp :=
  fun _ => .success [("Location", "http://scanner/eSCL/ScanJobs/1")]

/-- A transport that answers every POST with HTTP 503. -/
def busyTransport : Nat → HttpResp := fun _ => .httpError 503

/-- A transport that answers the first two POSTs with HTTP 503 and then
succeeds with a `Location` header. -/
def retryTransport : Nat → HttpResp :=
  fun n => if n < 2 then .httpError 503
    else .success [("Location", "http://scanner/eSCL/ScanJobs/1")]

/-- A capabilities document advertising no input source at all. -/
def capsNone : ScanCaps := ⟨false, false, false, false, false⟩

/-- A capabilities document with a flatbed and a duplex-only feeder: the
`scan:Adf` key is present but `scan:AdfSimplexInputCaps` is missing. -/
def capsNoSimplex : ScanCaps := ⟨true, true, true, false, true⟩

/-- A result transport whose first GET succeeds (later GETs would 404). -/
def fetchOkTransport : Nat → FetchResp := fun n => if n = 0 then .ok else .httpError 404

/-- A result transport whose first GET already answers 404. -/
def fetch404Transport : Nat → FetchResp := fun _ => .httpError 404
/-! ## Helper lemmas -/

/-- Exhibiting a decomposition `pre ++ mid ++ post` of a string shows that
`mid` occurs in it as a substring. -/
theorem xmlContains_of_eq (pre post : String) {mid whole : String}
    (h : pre ++ mid ++ post = whole) : xmlContains whole mid := by
  refine ⟨pre.data, post.data, ?_⟩
  have hd := congrArg String.data h
  simpa [String.data_append] using hd

/-- The actually emitted region block, with its literals fused the same way
the source fuses them (proved by evaluation). -/
theorem scanRegionsBlock_three_eq : scanRegionsBlock threeHundredthsOfInchesUnits =
    "<pwg:ScanRegions>" ++
    "<pwg:ScanRegion>" ++
    "<pwg:ContentRegionUnits>escl:ThreeHundredthsOfInches</pwg:ContentRegionUnits>" ++
    "<pwg:Height>3507</pwg:Height>" ++
    "<pwg:Width>2550</pwg:Width>" ++
    "<pwg:XOffset>0</pwg:XOffset>" ++
    "<pwg:YOffset>0</pwg:YOffset>" ++
    "</pwg:ScanRegion>" ++
    "</pwg:ScanRegions>" := rfl

/-- Soundness of the matcher: a substring occurrence makes it answer `true`. -/
theorem occursInChars_of_infix {pat s : List Char} (h : pat <:+: s) :
    occursInChars pat s = true := by
  induction s with
  | nil =>
    rw [List.infix_nil] at h
    simp [h, occursInChars]
  | cons c cs ih =>
    obtain ⟨A, B, hAB⟩ := h
    match A, hAB with
    | [], hAB =>
      have hpre : pat <+: c :: cs := ⟨B, by simpa using hAB⟩
      simp [occursInChars, List.isPrefixOf_iff_prefix, hpre]
    | a :: A2, hAB =>
      have htail : pat <:+: cs := ⟨A2, B, by simpa using congrArg List.tail hAB⟩
      simp [occursInChars, ih htail]

/-- Under an all-503 transport, the retry loop exits with status 1 after
making `b + 1` attempts and sleeping `b + 1` times when started with budget
`b + 1`. -/
theorem postLoop_busy (t : Nat → HttpResp) (h : ∀ n, t n = .httpError 503) :
    ∀ b, postLoop t (b + 1) = ⟨.exited 1, b + 1, b + 1⟩ := by
  intro b
  induction b with
  | zero => simp [postLoop, h]
  | succ b ih => simp [postLoop, h, ih]

/-- Under a transport that answers 503 for the `k` attempts starting at
count `c` and then succeeds, the retry loop started at count `c` (budget
`100 - c`) returns the location header after `k + 1` attempts and `k`
sleeps. -/
theorem postLoop_retry (t : Nat → HttpResp) (hs : List (String × String)) :
    ∀ (k c : Nat), c + k < 100 → (∀ i, i < k → t (c + i) = .httpError 503) →
      t (c + k) = .success hs →
      postLoop t (100 - c) = ⟨.returned (getHeader hs "location"), k + 1, k⟩ := by
  intro k
  induction k with
  | zero =>
    intro c hc h503 hsucc
    have hsucc2 : t c = .success hs := by simpa using hsucc
    rcases Nat.lt_or_ge c 99 with h99 | h99
    · obtain ⟨b, hb⟩ : ∃ b, 100 - c = b + 2 := ⟨98 - c, by omega⟩
      have hdisc : 100 - (b + 2) = c := by omega
      rw [hb]
      simp [postLoop, hdisc, hsucc2]
    · have hc99 : c = 99 := by omega
      subst hc99
      rw [show (100 : Nat) - 99 = 1 by norm_num]
      simp [postLoop, hsucc2]
  | succ k ih =>
    intro c hc h503 hsucc
    obtain ⟨b, hb⟩ : ∃ b, 100 - c = b + 2 := ⟨98 - c, by omega⟩
    have hdisc : 100 - (b + 2) = c := by omega
    have h503c : t c = .httpError 503 := by simpa using h503 0 (by omega)
    have hb99 : b + 1 = 99 - c := by omega
    have hrec : postLoop t (99 - c) =
        ⟨.returned (getHeader hs "location"), k + 1, k⟩ := by
      rw [show (99 : Nat) - c = 100 - (c + 1) by omega]
      exact ih (c + 1) (by omega)
        (fun i hi => by
          have := h503 (i + 1) (by omega)
          rwa [show c + (i + 1) = c + 1 + i by omega] at this)
        (by rwa [show c + (k + 1) = c + 1 + k by omega] at hsucc)
    rw [hb]
    simp [postLoop, hdisc, h503c, hb99, hrec]

/-! ## Claim theorems -/

/-- C1 (counterexample): the claim asserts the scan-settings document carries
a region-units tag denoting hundredths-of-inch units.  At the concrete inputs
actually used by the program (`Feeder`, 300 dpi, `application/pdf`, `RGB24`)
the built document contains no scan region whose units literal is the
hundredths-of-inch one, so the claim fails: the emitted units literal is
`escl:ThreeHundredthsOfInches` (1/300 inch). -/
theorem build_scansettings_xml_hundredths_refuted :
    ¬ xmlContains (build_scansettings_xml "Feeder" "300" "application/pdf" "RGB24" true)
      (scanRegionsBlock hundredthsOfInchesUnits) := by
  intro h
  have hfalse : occursInChars (scanRegionsBlock hundredthsOfInchesUnits).data
      (build_scansettings_xml "Feeder" "300" "application/pdf" "RGB24" true).data = false := by
    rfl
  have htrue := occursInChars_of_infix h
  rw [hfalse] at htrue
  exact Bool.false_ne_true htrue

/-- C1 (amended): for every source, resolution, document format and color
mode, the scan-settings document produced by `build_scansettings_xml`
contains a scan-regions element holding exactly one scan region with height
3507, width 2550, X and Y offsets 0, and a region-units tag
`escl:ThreeHundredthsOfInches`, denoting three-hundredths-of-inch units. -/
theorem build_scansettings_xml_one_region_three_hundredths
    (source resolution docformat colormode : String) (extformat : Bool) :
    xmlContains (build_scansettings_xml source resolution docformat colormode extformat)
      (scanRegionsBlock threeHundredthsOfInchesUnits) := by
  apply xmlContains_of_eq
    ("<?xml version=\"1.0\" encoding=\"UTF-8\"?>" ++
      "<scan:ScanSettings xmlns:pwg=\"http://www.pwg.org/schemas/2010/12/sm\" " ++
      "xmlns:scan=\"http://schemas.hp.com/imaging/escl/2011/05/03\">" ++
      "<pwg:Version>2.0</pwg:Version>" ++
      "<pwg:InputSource>" ++ source ++ "</pwg:InputSource>")
    ("<pwg:DocumentFormat>" ++ docformat ++ "</pwg:DocumentFormat>" ++
      (if extformat then "<pwg:DocumentFormatExt>" ++ docformat ++ "</pwg:DocumentFormatExt>" else "") ++
      "<scan:ColorMode>" ++ colormode ++ "</scan:ColorMode>" ++
      "<scan:XResolution>" ++ resolution ++ "</scan:XResolution>" ++
      "<scan:YResolution>" ++ resolution ++ "</scan:YResolution>" ++
      "</scan:ScanSettings>")
  rw [scanRegionsBlock_three_eq]
  simp [build_scansettings_xml, String.append_assoc]
  rw [← String.append_assoc
    "</pwg:InputSource><pwg:ScanRegions><pwg:ScanRegion><pwg:ContentRegionUnits>escl:ThreeHundredthsOfInches</pwg:ContentRegionUnits><pwg:Height>3507</pwg:Height><pwg:Width>2550</pwg:Width><pwg:XOffset>0</pwg:XOffset><pwg:YOffset>0</pwg:YOffset></pwg:ScanRegion></pwg:ScanRegions>"
    "<pwg:DocumentFormat>"]
  simp

/-- C2 (counterexample): on a 2xx response with no `Location` header,
`post_scanrequest` does not fail with any error: it returns normally after
one attempt, handing back Python `None` (here `none`) as the location. -/
theorem post_scanrequest_missing_location_refuted :
    post_scanrequest noLocationTransport = ⟨.returned none, 1, 0⟩ ∧
    ¬ failsAbnormally (post_scanrequest noLocationTransport) := by
  refine ⟨rfl, ?_⟩
  intro hfail
  rw [show post_scanrequest noLocationTransport = ⟨.returned none, 1, 0⟩ from rfl] at hfail
  rcases hfail with h | ⟨c, h⟩ <;> exact PostResult.noConfusion h

/-- C2 (amended): when job submission receives a 2xx response it returns the
value of the `Location` response header (case-insensitive lookup of the first
match) verbatim as the job location; when that header is absent it returns
Python `None` (here `none`) as a normal return, raising no error. -/
theorem post_scanrequest_location_verbatim (t : Nat → HttpResp)
    (hs : List (String × String)) (h : t 0 = .success hs) :
    post_scanrequest t = ⟨.returned (getHeader hs "location"), 1, 0⟩ := by
  simp [post_scanrequest, show (100 : Nat) = 98 + 2 from rfl, postLoop, h]

/-- C2 (witness): a transport whose first response carries
`Location: http://scanner/eSCL/ScanJobs/1` makes `post_scanrequest` return
exactly that string. -/
theorem post_scanrequest_location_verbatim_witness :
    post_scanrequest locationTransport =
      ⟨.returned (some "http://scanner/eSCL/ScanJobs/1"), 1, 0⟩ :=
  (post_scanrequest_location_verbatim locationTransport
    [("Location", "http://scanner/eSCL/ScanJobs/1")] rfl).trans rfl

/-- C3: if every POST of the job descriptor receives HTTP 503,
`post_scanrequest` makes exactly 100 POST attempts, sleeps exactly 100
times (once after each 503), and then terminates the process with exit
status 1 — it does not raise to the caller. -/
theorem post_scanrequest_busy_exhaustion (t : Nat → HttpResp)
    (h : ∀ n, t n = .httpError 503) :
    post_scanrequest t = ⟨.exited 1, 100, 100⟩ := by
  have := postLoop_busy t h 99
  simpa [post_scanrequest] using this

/-- C3 (witness): the always-503 transport exhausts the retry budget. -/
theorem post_scanrequest_busy_exhaustion_witness :
    post_scanrequest busyTransport = ⟨.exited 1, 100, 100⟩ :=
  post_scanrequest_busy_exhaustion busyTransport (fun _ => rfl)

/-- C4: for every k < 100, if the transport answers the job-submission POST
with HTTP 503 exactly k times and then with a 2xx response whose `Location`
header is `loc`, `post_scanrequest` returns `loc` after exactly k retries
(k + 1 POSTs in total) and exactly k sleeps. -/
theorem post_scanrequest_busy_retry_success (k : Nat) (t : Nat → HttpResp)
    (hs : List (String × String)) (loc : String) (hk : k < 100)
    (h503 : ∀ i, i < k → t i = .httpError 503) (hsucc : t k = .success hs)
    (hloc : getHeader hs "location" = some loc) :
    post_scanrequest t = ⟨.returned (some loc), k + 1, k⟩ := by
  have := postLoop_retry t hs k 0 (by omega) (by simpa using h503) (by simpa using hsucc)
  rw [hloc] at this
  simpa [post_scanrequest] using this

/-- C4 (witness): two 503s followed by a success with a `Location` header
yield that location after 3 POSTs and 2 sleeps. -/
theorem post_scanrequest_busy_retry_success_witness :
    post_scanrequest retryTransport =
      ⟨.returned (some "http://scanner/eSCL/ScanJobs/1"), 3, 2⟩ :=
  post_scanrequest_busy_retry_success 2 retryTransport
    [("Location", "http://scanner/eSCL/ScanJobs/1")] "http://scanner/eSCL/ScanJobs/1"
    (by omega)
    (fun i hi => by
      match i, hi with
      | 0, _ => rfl
      | 1, _ => rfl)
    rfl rfl

/-- C5: for every capabilities document advertising neither a usable flatbed
nor a simplex feeder nor a duplex feeder, source resolution exits with
status 1 and the no-scan-source message, for every requested source value,
before the requested value is examined (the result does not depend on
`requested`). -/
theorem resolve_source_no_source (requested : String) (caps : ScanCaps)
    (hf : have_flatbed caps = false) (ha : have_adf caps = false)
    (hd : have_duplex caps = false) :
    resolve_source requested caps =
      .exited 1 ["no scan source (Flatbed, ADF) found, bailing out"] := by
  simp [resolve_source, hf, ha, hd]

/-- C5 (witness): the empty capabilities document makes an `ADF` request
bail out with the no-scan-source message. -/
theorem resolve_source_no_source_witness :
    resolve_source "ADF" capsNone =
      .exited 1 ["no scan source (Flatbed, ADF) found, bailing out"] :=
  resolve_source_no_source "ADF" capsNone rfl rfl rfl

/-- C6: for every capabilities document where the simplex feeder is
unavailable but the flatbed is available, requesting source `ADF` resolves
to the Platen physical input (the non-feeder branch, whose selected source
string is "Platen") and prints the fallback warning rather than silently
substituting. -/
theorem resolve_source_adf_fallback_platen (caps : ScanCaps) (format : String)
    (ha : have_adf caps = false) (hf : have_flatbed caps = true) :
    resolve_source "ADF" caps =
      .proceed false false .platen ["source ADF not available, falling back to Flatbed"] ∧
    (select_source_and_multifile false format).1 = "Platen" := by
  constructor
  · simp [resolve_source, ha, hf]
  · simp [select_source_and_multifile]

/-- C6 (witness): a document with flatbed and duplex-only feeder falls back
to Platen with the warning for an `ADF` request. -/
theorem resolve_source_adf_fallback_platen_witness :
    resolve_source "ADF" capsNoSimplex =
      .proceed false false .platen ["source ADF not available, falling back to Flatbed"] ∧
    (select_source_and_multifile false "pdf").1 = "Platen" :=
  resolve_source_adf_fallback_platen capsNoSimplex "pdf" rfl rfl

/-- C7: the `multifile` flag handed to `fetch_result` is true exactly when
the selected input-source string is "Feeder" and the output format is not
"pdf"; in all other cases (Platen input, or Feeder with pdf) it is false. -/
theorem multifile_iff_feeder_and_non_pdf (adf : Bool) (format : String) :
    (select_source_and_multifile adf format).2 = true ↔
      ((select_source_and_multifile adf format).1 = "Feeder" ∧ format ≠ "pdf") := by
  cases adf <;> simp [select_source_and_multifile]

/-- C8: in multi-page mode the target filename for page n splits off only the
final dot-separated extension segment of the output path template and inserts
`-n` before it: `out.pdf` gives `out-n.pdf` and `archive.scan.jpg` gives
`archive.scan-n.jpg` (not `archive-n.scan.jpg`). -/
theorem multi_filename_splits_last_segment (n : Nat) :
    multi_filename "out.pdf" n = "out-" ++ toString n ++ ".pdf" ∧
    multi_filename "archive.scan.jpg" n = "archive.scan-" ++ toString n ++ ".jpg" := by
  constructor
  · have e : multi_filename "out.pdf" n =
        "out" ++ "-" ++ toString n ++ "." ++ "pdf" := rfl
    rw [e]
    simp [String.append_assoc]
  · have e : multi_filename "archive.scan.jpg" n =
        "archive.scan" ++ "-" ++ toString n ++ "." ++ "jpg" := rfl
    rw [e]
    simp [String.append_assoc]

/-- C9: in non-multi-page mode, when the first GET of the job's
`NextDocument` endpoint succeeds, `fetch_result` writes exactly one file,
named exactly the output path template, and stops after that single GET
(the result does not depend on any later response of the transport). -/
theorem fetch_result_single_page (t : Nat → FetchResp) (outfile : String)
    (fuel : Nat) (h : t 0 = .ok) :
    fetch_result t outfile false (fuel + 1) = some (.done [outfile] 1) := by
  simp [fetch_result, fetchLoop, h]

/-- C9 (witness): a transport whose first GET succeeds yields exactly the
file `./out.pdf` and one GET. -/
theorem fetch_result_single_page_witness :
    fetch_result fetchOkTransport "./out.pdf" false 5 = some (.done ["./out.pdf"] 1) :=
  fetch_result_single_page fetchOkTransport "./out.pdf" 4 rfl

/-- C10: in non-multi-page mode, if the very first GET of the job's
`NextDocument` endpoint answers HTTP 404, `fetch_result` returns normally
(`done`, not `raised`) having written zero files. -/
theorem fetch_result_first_404_normal (t : Nat → FetchResp) (outfile : String)
    (fuel : Nat) (h : t 0 = .httpError 404) :
    fetch_result t outfile false (fuel + 1) = some (.done [] 1) := by
  simp [fetch_result, fetchLoop, h]

/-- C10 (witness): a transport answering 404 at once makes `fetch_result`
return normally with no file written. -/
theorem fetch_result_first_404_normal_witness :
    fetch_result fetch404Transport "./out.pdf" false 5 = some (.done [] 1) :=
  fetch_result_first_404_normal fetch404Transport "./out.pdf" 4 rfl
